import Mathlib

/-!
Verification of the sequential speech playback engine (`SpeechService`)
of the audiobook-app repository.

The engine is a single-threaded asynchronous state machine.  We embed it
shallowly: every public operation and every stored completion handler
becomes a pure function `EngineState → EngineState × List Ev`, where the
`Ev` list records the externally observable actions in emission order
(callbacks to the caller, commands to the two adapters, console output).
Asynchronous callback delivery (audio element `ended`, synthesis end,
debounce timer firing, play-promise rejection) is modelled by explicit
`fire...` steps that run the handler currently stored in the state.

JavaScript falsiness in the precondition check is modelled directly: a
missing `bookId` is the empty string, a missing `totalLines` is `0`, a
missing `selectedVoice` is `none`, and `configs.rate || 1.0` treats a
zero rate as missing.
-/

namespace SpeechService

/-- Voice backend selector, the `type` field of a `VoiceOption`. -/
inductive VoiceType
  | system
  | cloud
deriving DecidableEq, Repr

/-- `VoiceOption` as consumed by the engine: backend type and voice id. -/
structure VoiceOption where
  type : VoiceType
  id : String
deriving DecidableEq, Repr

/-- `SpeechConfigs`: the per-call playback configuration.  `rate` is
optional (`configs.rate || 1.0` in the source); a missing `bookId` is the
empty string and a missing `totalLines` is `0`, matching the falsiness
check of `play`. -/
structure SpeechConfigs where
  bookId : String
  lines : List String
  totalLines : Int
  rate : Option ℚ
  selectedVoice : Option VoiceOption
deriving DecidableEq, Repr

/-- Externally observable actions of the engine, in emission order:
caller callbacks (`isPlayingChange`, `bookCompleted`, `loadMoreLines`,
`lineEnd`), adapter commands (`ttsStop`, `ttsSpeak`, `cloudPause`,
`cloudUnload`, `cloudSetSrc`, `cloudPlay`) and console output. -/
inductive Ev
  | isPlayingChange (b : Bool)
  | bookCompleted (ts : String)
  | loadMoreLines (i : Int)
  | lineEnd (i : Int)
  | ttsStop
  | ttsSpeak (text : String)
  | cloudPause
  | cloudUnload
  | cloudSetSrc (url : String)
  | cloudPlay (url : String)
  | consoleError (msg : String)
  | consoleLog (msg : String)
deriving DecidableEq, Repr

/-- State of the persistent cloud audio element: current source, the
stored `onended` handler (defunctionalized as the `(index, configs)` the
closure captures), playback rate and paused flag. -/
structure CloudAudioState where
  src : Option String
  onended : Option (Int × SpeechConfigs)
  playbackRate : ℚ
  paused : Bool
deriving DecidableEq, Repr

/-- Engine state.  `ttsUtterance` is the in-flight utterance of the
on-device adapter, defunctionalized as the `(index, configs)` captured by
its completion closures.  `timer` is the at-most-one pending debounced
resume, holding the `(index, configs)` the scheduled `play` will use.
`hasMediaSession` models the environmental capability check
`mediaSession in navigator` and is never mutated by the engine. -/
structure EngineState where
  cloud : CloudAudioState
  ttsUtterance : Option (Int × SpeechConfigs)
  silentPlaying : Bool
  isRestarting : Bool
  timer : Option (Int × SpeechConfigs)
  currentBookId : Option String
  hasMediaSession : Bool
  msPlaybackState : String
  msHandlers : Option (Int × SpeechConfigs)
deriving DecidableEq, Repr

/-- `configs.rate || 1.0`: a missing or zero (falsy) rate defaults to 1. -/
def effRate (cfg : SpeechConfigs) : ℚ :=
  match cfg.rate with
  | none => 1
  | some r => if r = 0 then 1 else r

/-- The per-line cloud audio URL built in `startCloudSpeech`. -/
def cloudUrl (i : Int) (cfg : SpeechConfigs) : String :=
  "/api/books/" ++ cfg.bookId ++ "/audio/" ++ toString i ++ "?voice=" ++
    (match cfg.selectedVoice with
     | some v => v.id
     | none => "")

/-- `SpeechService.stopCloud`: pause the audio element, drop the `ended`
handler, detach the source attribute and reload, unloading the resource. -/
def stopCloud (s : EngineState) : EngineState × List Ev :=
  ({ s with cloud := { src := none, onended := none,
                       playbackRate := s.cloud.playbackRate, paused := true } },
   [Ev.cloudPause, Ev.cloudUnload])

/-- Modelled from the spec: `TTSNative.stop` (the OnDeviceSpeechAdapter,
whose source file is not in the snapshot) cancels the keep-alive pulse
and the backend utterance and drops the utterance reference. -/
def ttsNativeStop (s : EngineState) : EngineState × List Ev :=
  ({ s with ttsUtterance := none }, [Ev.ttsStop])

/-- `SpeechService.pause`: clear any pending resume timer, pause the
silent keep-alive audio, stop both adapters, set the OS playback state to
paused.  Emits no `isPlayingChange`. -/
def pause (s : EngineState) : EngineState × List Ev :=
  let s1 : EngineState := { s with timer := none, silentPlaying := false }
  let p2 := stopCloud s1
  let p3 := ttsNativeStop p2.1
  let s4 := if p3.1.hasMediaSession
            then { p3.1 with msPlaybackState := "paused" } else p3.1
  (s4, p2.2 ++ p3.2)

/-- `SpeechService.setupMediaSession` and `updateActionHandlers`: a no-op
without the media-session capability; otherwise refresh the cached book
id (metadata is rewritten only on a book change) and rebind the transport
action handlers to closures capturing `(index, configs)`. -/
def setupMediaSession (i : Int) (cfg : SpeechConfigs) (s : EngineState) :
    EngineState :=
  if s.hasMediaSession then
    let s1 := if s.currentBookId ≠ some cfg.bookId
              then { s with currentBookId := some cfg.bookId } else s
    { s1 with msHandlers := some (i, cfg) }
  else s

/-- `SpeechService.startCloudSpeech`: pause the element, point it at the
per-line URL, set the playback rate, overwrite the `ended` handler with
one capturing `(index, configs)`, and start playback. -/
def startCloudSpeech (i : Int) (cfg : SpeechConfigs) (s : EngineState) :
    EngineState × List Ev :=
  let url := cloudUrl i cfg
  ({ s with cloud := { src := some url, onended := some (i, cfg),
                       playbackRate := effRate cfg, paused := false } },
   [Ev.cloudPause, Ev.cloudSetSrc url, Ev.cloudPlay url])

/-- `SpeechService.startSystemSpeech` together with the modelled
`TTSNative.speak` (source file not in the snapshot; per the spec it
cancels any in-flight utterance before starting synthesis): speak
`configs.lines[index]`, storing the `(index, configs)` captured by the
completion closures as the new in-flight utterance. -/
def startSystemSpeech (i : Int) (cfg : SpeechConfigs) (s : EngineState) :
    EngineState × List Ev :=
  ({ s with ttsUtterance := some (i, cfg) },
   [Ev.ttsSpeak (cfg.lines.getD i.toNat "")])

/-- The state after the keep-alive cue and media-session update of the
active branch of `play`: silent audio playing, media session refreshed
and, when available, its playback state set to playing. -/
def activeBase (i : Int) (cfg : SpeechConfigs) (s : EngineState) :
    EngineState :=
  let s1 : EngineState := { s with silentPlaying := true }
  let s2 := setupMediaSession i cfg s1
  if s2.hasMediaSession then { s2 with msPlaybackState := "playing" } else s2

/-- `SpeechService.play`: precondition check (falsiness of `bookId`,
`totalLines`, `selectedVoice`), boundary check (end of book), loading
check (line not yet loaded), then keep-alive cue, media-session update,
and dispatch to exactly one adapter, stopping the other first. -/
def play (i : Int) (cfg : SpeechConfigs) (now : String) (s : EngineState) :
    EngineState × List Ev :=
  if cfg.bookId = "" ∨ cfg.totalLines = 0 ∨ cfg.selectedVoice = none then
    (s, [])
  else if i < 0 ∨ cfg.totalLines ≤ i then
    (s, [Ev.isPlayingChange false, Ev.bookCompleted now])
  else if (cfg.lines.length : Int) ≤ i then
    let p := pause s
    (p.1, p.2 ++ [Ev.loadMoreLines i])
  else
    let s3 := activeBase i cfg s
    match cfg.selectedVoice with
    | none => (s3, [])
    | some v =>
      match v.type with
      | VoiceType.cloud =>
        let p4 := ttsNativeStop s3
        let p5 := startCloudSpeech i cfg p4.1
        (p5.1, p4.2 ++ p5.2)
      | VoiceType.system =>
        let p4 := stopCloud s3
        let p5 := startSystemSpeech i cfg p4.1
        (p5.1, p4.2 ++ p5.2)

/-- `SpeechService.start`: notify `onIsPlayingChange(true)` to the caller
and then run `play`. -/
def start (i : Int) (cfg : SpeechConfigs) (now : String) (s : EngineState) :
    EngineState × List Ev :=
  let p := play i cfg now s
  (p.1, Ev.isPlayingChange true :: p.2)

/-- `SpeechService.stop`: clear the restart guard and any pending timer,
pause the keep-alive audio, stop both adapters, clear the media session,
and emit `onIsPlayingChange(false)`. -/
def stop (s : EngineState) : EngineState × List Ev :=
  let s1 : EngineState :=
    { s with isRestarting := false, timer := none, silentPlaying := false }
  let p2 := stopCloud s1
  let p3 := ttsNativeStop p2.1
  let s4 := if p3.1.hasMediaSession
            then { p3.1 with msPlaybackState := "none", msHandlers := none }
            else p3.1
  (s4, p2.2 ++ p3.2 ++ [Ev.isPlayingChange false])

/-- `SpeechService.resume`: cancel any pending timer, `pause()`
immediately, set the restart guard and schedule a debounced `play` with
the (single-slot) timer holding `(index, configs)`. -/
def resume (i : Int) (cfg : SpeechConfigs) (s : EngineState) :
    EngineState × List Ev :=
  let s1 : EngineState := { s with timer := none }
  let p2 := pause s1
  ({ p2.1 with isRestarting := true, timer := some (i, cfg) }, p2.2)

/-- Delivery of the debounce timeout: run the scheduled `play` with the
stored arguments, then clear the restart guard. -/
def fireTimer (now : String) (s : EngineState) : EngineState × List Ev :=
  match s.timer with
  | none => (s, [])
  | some (i, cfg) =>
    let p := play i cfg now { s with timer := none }
    ({ p.1 with isRestarting := false }, p.2)

/-- Delivery of the cloud audio element `ended` event: the handler stored
by `startCloudSpeech` emits `onLineEnd(index + 1)` and recurses into
`start(index + 1, configs)`. -/
def fireCloudEnded (now : String) (s : EngineState) : EngineState × List Ev :=
  match s.cloud.onended with
  | none => (s, [])
  | some (i, cfg) =>
    let p := start (i + 1) cfg now s
    (p.1, Ev.lineEnd (i + 1) :: p.2)

/-- Delivery of the on-device synthesis end: the `onEnd` closure passed
by `startSystemSpeech` emits `onLineEnd(index + 1)` and recurses into
`start(index + 1, configs)`; the finished utterance is dropped. -/
def fireTtsEnd (now : String) (s : EngineState) : EngineState × List Ev :=
  match s.ttsUtterance with
  | none => (s, [])
  | some (i, cfg) =>
    let p := start (i + 1) cfg now { s with ttsUtterance := none }
    (p.1, Ev.lineEnd (i + 1) :: p.2)

/-- Delivery of an on-device synthesis error: the `onError` closure emits
`onIsPlayingChange(false)` unless a debounced restart is pending. -/
def fireTtsError (s : EngineState) : EngineState × List Ev :=
  if s.isRestarting then (s, []) else (s, [Ev.isPlayingChange false])

/-- Rejection of the cloud `play()` promise, with the rejection error
name: the catch handler in `startCloudSpeech` logs an interruption
message for `AbortError` and logs an error otherwise; it emits no caller
event in either case. -/
def cloudPlayCatch (name : String) (s : EngineState) : EngineState × List Ev :=
  if name ≠ "AbortError" then
    (s, [Ev.consoleError ("Cloud playback error: " ++ name)])
  else
    (s, [Ev.consoleLog "Cloud playback was interrupted by a new request"])

/-- Delivery of a cloud audio element `error` event: the constructor
installs an `onerror` handler that emits `onIsPlayingChange(false)`. -/
def cloudOnError (s : EngineState) : EngineState × List Ev :=
  (s, [Ev.isPlayingChange false])

/-- The freshly constructed engine: empty audio element, no utterance, no
timer, no cached book id.  `hasMS` is the environmental media-session
capability. -/
def initState (hasMS : Bool) : EngineState :=
  { cloud := { src := none, onended := none, playbackRate := 1, paused := true },
    ttsUtterance := none, silentPlaying := false, isRestarting := false,
    timer := none, currentBookId := none, hasMediaSession := hasMS,
    msPlaybackState := "none", msHandlers := none }

/-! Concrete fixtures used by scenario claims and witnesses. -/

def voiceSys : VoiceOption := { type := VoiceType.system, id := "v-sys" }

def voiceCloud : VoiceOption := { type := VoiceType.cloud, id := "v-cloud" }

/-- A fully loaded three-line book with the system voice. -/
def cfgSys : SpeechConfigs :=
  { bookId := "A", lines := ["l0", "l1", "l2"], totalLines := 3,
    rate := none, selectedVoice := some voiceSys }

/-- A fully loaded three-line book with the cloud voice. -/
def cfgCloud : SpeechConfigs :=
  { bookId := "A", lines := ["l0", "l1", "l2"], totalLines := 3,
    rate := none, selectedVoice := some voiceCloud }

/-- A three-line book with only its first line loaded. -/
def cfgPartial : SpeechConfigs :=
  { bookId := "A", lines := ["l0"], totalLines := 3,
    rate := none, selectedVoice := some voiceSys }

/-- The ten-line scenario book of the spec, fully loaded, system voice. -/
def cfgTen : SpeechConfigs :=
  { bookId := "B",
    lines := ["a0", "a1", "a2", "a3", "a4", "a5", "a6", "a7", "a8", "a9"],
    totalLines := 10, rate := none, selectedVoice := some voiceSys }

/-- A configuration with a missing (empty, falsy) `bookId`. -/
def cfgMissing : SpeechConfigs :=
  { bookId := "", lines := [], totalLines := 3,
    rate := none, selectedVoice := some voiceSys }

/-- An empty book: `totalLines = 0`, which is falsy. -/
def cfgEmptyBook : SpeechConfigs :=
  { bookId := "C", lines := [], totalLines := 0,
    rate := none, selectedVoice := some voiceSys }

/-- A fresh engine without the media-session capability. -/
def st0 : EngineState := initState false

/-- An engine mid-synthesis of line 9 of the ten-line scenario book. -/
def stNine : EngineState :=
  { initState false with ttsUtterance := some (9, cfgTen) }

/-! Branch lemmas for `play`, shared by the claim proofs. -/

/-- `play` with a falsy precondition is a silent no-op. -/
lemma play_pre (i : Int) (cfg : SpeechConfigs) (now : String)
    (s : EngineState)
    (h : cfg.bookId = "" ∨ cfg.totalLines = 0 ∨ cfg.selectedVoice = none) :
    play i cfg now s = (s, []) := by
  unfold play
  rw [if_pos h]

/-- The boundary branch of `play`: out-of-range index means end of book. -/
lemma play_boundary (i : Int) (cfg : SpeechConfigs) (now : String)
    (s : EngineState)
    (hpre : ¬(cfg.bookId = "" ∨ cfg.totalLines = 0 ∨ cfg.selectedVoice = none))
    (hI : i < 0 ∨ cfg.totalLines ≤ i) :
    play i cfg now s =
      (s, [Ev.isPlayingChange false, Ev.bookCompleted now]) := by
  unfold play
  rw [if_neg hpre, if_pos hI]

/-- The loading branch of `play`: in range but not yet loaded. -/
lemma play_loading (i : Int) (cfg : SpeechConfigs) (now : String)
    (s : EngineState)
    (hpre : ¬(cfg.bookId = "" ∨ cfg.totalLines = 0 ∨ cfg.selectedVoice = none))
    (hI : ¬(i < 0 ∨ cfg.totalLines ≤ i))
    (hL : (cfg.lines.length : Int) ≤ i) :
    play i cfg now s =
      ((pause s).1, (pause s).2 ++ [Ev.loadMoreLines i]) := by
  unfold play
  rw [if_neg hpre, if_neg hI, if_pos hL]

/-- The cloud dispatch branch of `play`: stop the on-device adapter, then
start cloud playback of line `i`. -/
lemma play_cloud (i : Int) (cfg : SpeechConfigs) (vid : String)
    (now : String) (s : EngineState)
    (hpre : ¬(cfg.bookId = "" ∨ cfg.totalLines = 0 ∨ cfg.selectedVoice = none))
    (hI : ¬(i < 0 ∨ cfg.totalLines ≤ i))
    (hL : ¬((cfg.lines.length : Int) ≤ i))
    (hv : cfg.selectedVoice = some ⟨VoiceType.cloud, vid⟩) :
    play i cfg now s =
      ({ activeBase i cfg s with
          ttsUtterance := none,
          cloud := { src := some (cloudUrl i cfg),
                     onended := some (i, cfg),
                     playbackRate := effRate cfg, paused := false } },
       [Ev.ttsStop, Ev.cloudPause, Ev.cloudSetSrc (cloudUrl i cfg),
        Ev.cloudPlay (cloudUrl i cfg)]) := by
  unfold play
  rw [if_neg hpre, if_neg hI, if_neg hL, hv]
  rfl

/-- The system dispatch branch of `play`: stop (unload) the cloud
adapter, then start on-device synthesis of line `i`. -/
lemma play_system (i : Int) (cfg : SpeechConfigs) (vid : String)
    (now : String) (s : EngineState)
    (hpre : ¬(cfg.bookId = "" ∨ cfg.totalLines = 0 ∨ cfg.selectedVoice = none))
    (hI : ¬(i < 0 ∨ cfg.totalLines ≤ i))
    (hL : ¬((cfg.lines.length : Int) ≤ i))
    (hv : cfg.selectedVoice = some ⟨VoiceType.system, vid⟩) :
    play i cfg now s =
      ({ activeBase i cfg s with
          ttsUtterance := some (i, cfg),
          cloud := { src := none, onended := none,
                     playbackRate := (activeBase i cfg s).cloud.playbackRate,
                     paused := true } },
       [Ev.cloudPause, Ev.cloudUnload,
        Ev.ttsSpeak (cfg.lines.getD i.toNat "")]) := by
  unfold play
  rw [if_neg hpre, if_neg hI, if_neg hL, hv]
  rfl

/-- The observable trace of `pause`: stop the cloud element, unload it,
stop the on-device adapter. -/
lemma pause_events (s : EngineState) :
    (pause s).2 = [Ev.cloudPause, Ev.cloudUnload, Ev.ttsStop] := rfl

/-- `pause` leaves no stored cloud completion handler. -/
lemma pause_onended (s : EngineState) :
    (pause s).1.cloud.onended = none := by
  unfold pause stopCloud ttsNativeStop
  dsimp only
  split <;> rfl

/-- `pause` leaves no in-flight on-device utterance. -/
lemma pause_tts (s : EngineState) :
    (pause s).1.ttsUtterance = none := by
  unfold pause stopCloud ttsNativeStop
  dsimp only
  split <;> rfl

/-- `pause` leaves no pending resume timer. -/
lemma pause_timer (s : EngineState) :
    (pause s).1.timer = none := by
  unfold pause stopCloud ttsNativeStop
  dsimp only
  split <;> rfl

/-- The observable trace of `stop`. -/
lemma stop_events (s : EngineState) :
    (stop s).2 =
      [Ev.cloudPause, Ev.cloudUnload, Ev.ttsStop, Ev.isPlayingChange false] :=
  rfl

/-- `stop` leaves no stored cloud completion handler. -/
lemma stop_onended (s : EngineState) :
    (stop s).1.cloud.onended = none := by
  unfold stop stopCloud ttsNativeStop
  dsimp only
  split <;> rfl

/-- `stop` leaves no in-flight on-device utterance. -/
lemma stop_tts (s : EngineState) :
    (stop s).1.ttsUtterance = none := by
  unfold stop stopCloud ttsNativeStop
  dsimp only
  split <;> rfl

/-- The keep-alive and media-session bookkeeping of the active branch
changes neither the adapters nor the timers. -/
lemma activeBase_frame (i : Int) (cfg : SpeechConfigs) (s : EngineState) :
    (activeBase i cfg s).cloud = s.cloud ∧
    (activeBase i cfg s).ttsUtterance = s.ttsUtterance ∧
    (activeBase i cfg s).timer = s.timer ∧
    (activeBase i cfg s).isRestarting = s.isRestarting := by
  unfold activeBase setupMediaSession
  dsimp only
  by_cases h1 : s.hasMediaSession = true
  · by_cases h2 : s.currentBookId ≠ some cfg.bookId
    · simp [h1, h2]
    · simp [h1, h2]
  · simp [h1]

/-- `play` never creates a pending resume timer. -/
lemma play_timer_none (i : Int) (cfg : SpeechConfigs) (now : String)
    (s : EngineState) (h : s.timer = none) :
    (play i cfg now s).1.timer = none := by
  by_cases h1 : cfg.bookId = "" ∨ cfg.totalLines = 0 ∨ cfg.selectedVoice = none
  · rw [play_pre i cfg now s h1]; exact h
  · by_cases h2 : i < 0 ∨ cfg.totalLines ≤ i
    · rw [play_boundary i cfg now s h1 h2]; exact h
    · by_cases h3 : (cfg.lines.length : Int) ≤ i
      · rw [play_loading i cfg now s h1 h2 h3]; exact pause_timer s
      · rcases hv : cfg.selectedVoice with _ | v
        · exact absurd (Or.inr (Or.inr hv)) h1
        · rcases v with ⟨vt, vid⟩
          cases vt
          · rw [play_system i cfg vid now s h1 h2 h3 hv]
            exact (activeBase_frame i cfg s).2.2.1.trans h
          · rw [play_cloud i cfg vid now s h1 h2 h3 hv]
            exact (activeBase_frame i cfg s).2.2.1.trans h

/-- C2: end-of-book boundary.  With all preconditions present and an
out-of-range index, `start(index, config)` emits `onIsPlayingChange(true)`
(the unconditional start notification), then `onIsPlayingChange(false)`
and `onBookCompleted(now)`, starts no adapter and leaves the state
untouched. -/
theorem c2_boundary (i : Int) (cfg : SpeechConfigs) (now : String)
    (s : EngineState)
    (hB : cfg.bookId ≠ "") (hT : cfg.totalLines ≠ 0)
    (hV : cfg.selectedVoice ≠ none)
    (hI : i < 0 ∨ cfg.totalLines ≤ i) :
    start i cfg now s =
      (s, [Ev.isPlayingChange true, Ev.isPlayingChange false,
           Ev.bookCompleted now]) := by
  have hpre : ¬(cfg.bookId = "" ∨ cfg.totalLines = 0 ∨
      cfg.selectedVoice = none) := by
    rintro (h | h | h)
    exacts [hB h, hT h, hV h]
  unfold start
  rw [play_boundary i cfg now s hpre hI]

/-- Witness for C2 at the concrete out-of-range index 5 of a three-line
cloud-voice book. -/
theorem c2_boundary_witness :
    start 5 cfgCloud "t0" st0 =
      (st0, [Ev.isPlayingChange true, Ev.isPlayingChange false,
             Ev.bookCompleted "t0"]) :=
  c2_boundary 5 cfgCloud "t0" st0 (by decide) (by decide) (by decide)
    (by decide)

/-- C5: loading gap.  With all preconditions present and an in-range but
not-yet-loaded index, `start` pauses (stopping both adapters), emits
`onLoadMoreLines(index)`, starts no adapter and schedules no retry of its
own. -/
theorem c5_loading_gap (i : Int) (cfg : SpeechConfigs) (now : String)
    (s : EngineState)
    (hB : cfg.bookId ≠ "") (hT : cfg.totalLines ≠ 0)
    (hV : cfg.selectedVoice ≠ none)
    (h0 : 0 ≤ i) (h1 : i < cfg.totalLines)
    (hL : (cfg.lines.length : Int) ≤ i) :
    (start i cfg now s).2 =
      [Ev.isPlayingChange true, Ev.cloudPause, Ev.cloudUnload, Ev.ttsStop,
       Ev.loadMoreLines i] ∧
    (start i cfg now s).1 = (pause s).1 ∧
    (start i cfg now s).1.timer = none := by
  have hpre : ¬(cfg.bookId = "" ∨ cfg.totalLines = 0 ∨
      cfg.selectedVoice = none) := by
    rintro (h | h | h)
    exacts [hB h, hT h, hV h]
  have hI : ¬(i < 0 ∨ cfg.totalLines ≤ i) := by
    rintro (h | h)
    exacts [absurd h h0.not_lt, absurd h h1.not_le]
  have hplay := play_loading i cfg now s hpre hI hL
  refine ⟨?_, ?_, ?_⟩
  · show (Ev.isPlayingChange true :: (play i cfg now s).2) = _
    rw [hplay]
    simp [pause_events]
  · show (play i cfg now s).1 = (pause s).1
    rw [hplay]
  · show (play i cfg now s).1.timer = none
    rw [hplay]
    exact pause_timer s

/-- Witness for C5: index 2 of a three-line book with only one loaded
line. -/
theorem c5_loading_gap_witness :
    (start 2 cfgPartial "t0" st0).2 =
      [Ev.isPlayingChange true, Ev.cloudPause, Ev.cloudUnload, Ev.ttsStop,
       Ev.loadMoreLines 2] ∧
    (start 2 cfgPartial "t0" st0).1 = (pause st0).1 ∧
    (start 2 cfgPartial "t0" st0).1.timer = none :=
  c5_loading_gap 2 cfgPartial "t0" st0 (by decide) (by decide) (by decide)
    (by decide) (by decide) (by decide)

/-- C6 counterexample: a cloud `play()` rejection whose error name is
not `AbortError` (here `NotAllowedError`, the autoplay refusal) is
logged by the catch handler but is NOT surfaced to the caller via
`onIsPlayingChange(false)`, contrary to the claim. -/
theorem c6_counterexample :
    (cloudPlayCatch "NotAllowedError" st0).2 =
      [Ev.consoleError "Cloud playback error: NotAllowedError"] ∧
    Ev.isPlayingChange false ∉ (cloudPlayCatch "NotAllowedError" st0).2 := by
  decide

/-- C6 amended: an `AbortError` rejection of the cloud `play()` promise
is swallowed (an interruption log only), any other rejection is logged
without emitting any caller event, and `onIsPlayingChange(false)` is
emitted by the audio element error handler installed in the constructor;
no path retries. -/
theorem c6_error_paths (name : String) (s : EngineState) :
    (name = "AbortError" →
      cloudPlayCatch name s =
        (s, [Ev.consoleLog "Cloud playback was interrupted by a new request"])) ∧
    (name ≠ "AbortError" →
      cloudPlayCatch name s =
        (s, [Ev.consoleError ("Cloud playback error: " ++ name)])) ∧
    cloudOnError s = (s, [Ev.isPlayingChange false]) := by
  refine ⟨fun h => ?_, fun h => ?_, rfl⟩
  · unfold cloudPlayCatch
    rw [if_neg (not_not_intro h)]
  · unfold cloudPlayCatch
    rw [if_pos h]

/-- Witness for the amended C6 at the two concrete error names. -/
theorem c6_error_paths_witness :
    cloudPlayCatch "AbortError" st0 =
      (st0, [Ev.consoleLog "Cloud playback was interrupted by a new request"]) ∧
    cloudPlayCatch "NotSupportedError" st0 =
      (st0, [Ev.consoleError ("Cloud playback error: " ++ "NotSupportedError")]) :=
  ⟨(c6_error_paths "AbortError" st0).1 rfl,
   (c6_error_paths "NotSupportedError" st0).2.1 (by decide)⟩

/-- C8 counterexample: a `start` call with a missing (empty) `bookId`
still emits an event to the caller, namely the unconditional
`onIsPlayingChange(true)` of `start`, contrary to the claim that no
event is emitted. -/
theorem c8_counterexample :
    (start 0 cfgMissing "t0" st0).2 = [Ev.isPlayingChange true] ∧
    (start 0 cfgMissing "t0" st0).2 ≠ [] := by
  decide

/-- C8 amended: with a missing `bookId`, `totalLines` or `selectedVoice`,
the internal `play` is a strict no-op (no state change, no adapter start,
no event); a `start` call performs no state change either, but still
emits its unconditional `onIsPlayingChange(true)` before validation. -/
theorem c8_precondition_noop (i : Int) (cfg : SpeechConfigs) (now : String)
    (s : EngineState)
    (h : cfg.bookId = "" ∨ cfg.totalLines = 0 ∨ cfg.selectedVoice = none) :
    play i cfg now s = (s, []) ∧
    start i cfg now s = (s, [Ev.isPlayingChange true]) := by
  refine ⟨play_pre i cfg now s h, ?_⟩
  unfold start
  rw [play_pre i cfg now s h]

/-- Witness for the amended C8 at a missing `bookId`. -/
theorem c8_precondition_noop_witness :
    play 0 cfgMissing "t0" st0 = (st0, []) ∧
    start 0 cfgMissing "t0" st0 = (st0, [Ev.isPlayingChange true]) :=
  c8_precondition_noop 0 cfgMissing "t0" st0 (Or.inl rfl)

/-- C9: `start` unconditionally emits `onIsPlayingChange(true)` before
any validation; consequently an end-of-book `start` produces the sequence
`true` then `false` then `onBookCompleted`, and a precondition-failing
`start` still emits `onIsPlayingChange(true)`. -/
theorem c9_eager_isPlaying (i : Int) (cfg : SpeechConfigs) (now : String)
    (s : EngineState) :
    (start i cfg now s).2 =
      Ev.isPlayingChange true :: (play i cfg now s).2 ∧
    (start 5 cfgSys "t0" st0).2 =
      [Ev.isPlayingChange true, Ev.isPlayingChange false,
       Ev.bookCompleted "t0"] ∧
    (start 0 cfgMissing "t0" st0).2 = [Ev.isPlayingChange true] := by
  refine ⟨rfl, by decide, by decide⟩

/-- C10: the precondition check uses falsiness, so `totalLines = 0` (an
empty book) or an empty `bookId` makes `play` silently no-op; in
particular an empty book never emits `onBookCompleted`, even though every
index is out of range. -/
theorem c10_falsy_preconditions (i : Int) (cfg : SpeechConfigs)
    (now : String) (s : EngineState)
    (h : cfg.totalLines = 0 ∨ cfg.bookId = "") :
    play i cfg now s = (s, []) ∧
    Ev.bookCompleted now ∉ (start i cfg now s).2 := by
  have hpre : cfg.bookId = "" ∨ cfg.totalLines = 0 ∨
      cfg.selectedVoice = none :=
    h.elim (fun h2 => Or.inr (Or.inl h2)) (fun h2 => Or.inl h2)
  refine ⟨play_pre i cfg now s hpre, ?_⟩
  unfold start
  rw [play_pre i cfg now s hpre]
  simp

/-- Witness for C10: the empty book at index 5 (which satisfies
`index ≥ totalLines`). -/
theorem c10_falsy_preconditions_witness :
    play 5 cfgEmptyBook "t0" st0 = (st0, []) ∧
    Ev.bookCompleted "t0" ∉ (start 5 cfgEmptyBook "t0" st0).2 :=
  c10_falsy_preconditions 5 cfgEmptyBook "t0" st0 (Or.inl rfl)

/-- On a state whose completion handlers are clear, any `start` leaves
each adapter handler either still absent or capturing exactly the new
session `(i, cfg)`. -/
lemma start_handlers (i : Int) (cfg : SpeechConfigs) (now : String)
    (s : EngineState)
    (hC : s.cloud.onended = none) (hT : s.ttsUtterance = none) :
    ((start i cfg now s).1.cloud.onended = none ∨
     (start i cfg now s).1.cloud.onended = some (i, cfg)) ∧
    ((start i cfg now s).1.ttsUtterance = none ∨
     (start i cfg now s).1.ttsUtterance = some (i, cfg)) := by
  unfold start
  by_cases h1 : cfg.bookId = "" ∨ cfg.totalLines = 0 ∨
      cfg.selectedVoice = none
  · rw [play_pre i cfg now s h1]
    exact ⟨Or.inl hC, Or.inl hT⟩
  · by_cases h2 : i < 0 ∨ cfg.totalLines ≤ i
    · rw [play_boundary i cfg now s h1 h2]
      exact ⟨Or.inl hC, Or.inl hT⟩
    · by_cases h3 : (cfg.lines.length : Int) ≤ i
      · rw [play_loading i cfg now s h1 h2 h3]
        exact ⟨Or.inl (pause_onended s), Or.inl (pause_tts s)⟩
      · rcases hv : cfg.selectedVoice with _ | v
        · exact absurd (Or.inr (Or.inr hv)) h1
        · rcases v with ⟨vt, vid⟩
          cases vt
          · rw [play_system i cfg vid now s h1 h2 h3 hv]
            exact ⟨Or.inl rfl, Or.inr rfl⟩
          · rw [play_cloud i cfg vid now s h1 h2 h3 hv]
            exact ⟨Or.inr rfl, Or.inl rfl⟩

/-- C1: supersession invariant.  `stop()` clears both stored completion
handlers, and a `stop()` immediately followed by `start(i, config)` leaves
each handler either absent or capturing exactly the new session
`(i, config)` — so the earlier session handler can never fire, emit
`onLineEnd`, or advance the cursor twice. -/
theorem c1_supersession (s : EngineState) (i : Int) (cfg : SpeechConfigs)
    (now : String) :
    ((stop s).1.cloud.onended = none ∧ (stop s).1.ttsUtterance = none) ∧
    (((start i cfg now (stop s).1).1.cloud.onended = none ∨
      (start i cfg now (stop s).1).1.cloud.onended = some (i, cfg)) ∧
     ((start i cfg now (stop s).1).1.ttsUtterance = none ∨
      (start i cfg now (stop s).1).1.ttsUtterance = some (i, cfg))) :=
  ⟨⟨stop_onended s, stop_tts s⟩,
   start_handlers i cfg now (stop s).1 (stop_onended s) (stop_tts s)⟩

/-- C3: adapter dispatch with mutual exclusion.  With all preconditions
present and an in-range, loaded index, `start(index, config)` invokes
exactly the adapter matching `config.selectedVoice.type` with the line
audio/text at `index`, and first stops the other adapter; in the system
case the cloud element source is cleared (unload) before the system
adapter speaks. -/
theorem c3_dispatch (i : Int) (cfg : SpeechConfigs) (v : VoiceOption)
    (now : String) (s : EngineState)
    (hB : cfg.bookId ≠ "") (hT : cfg.totalLines ≠ 0)
    (hV : cfg.selectedVoice = some v)
    (h0 : 0 ≤ i) (h1 : i < cfg.totalLines)
    (h2 : i < (cfg.lines.length : Int)) :
    (v.type = VoiceType.cloud →
      (start i cfg now s).2 =
        [Ev.isPlayingChange true, Ev.ttsStop, Ev.cloudPause,
         Ev.cloudSetSrc (cloudUrl i cfg), Ev.cloudPlay (cloudUrl i cfg)] ∧
      (start i cfg now s).1.ttsUtterance = none ∧
      (start i cfg now s).1.cloud.onended = some (i, cfg) ∧
      (start i cfg now s).1.cloud.src = some (cloudUrl i cfg)) ∧
    (v.type = VoiceType.system →
      (start i cfg now s).2 =
        [Ev.isPlayingChange true, Ev.cloudPause, Ev.cloudUnload,
         Ev.ttsSpeak (cfg.lines.getD i.toNat "")] ∧
      (start i cfg now s).1.cloud.src = none ∧
      (start i cfg now s).1.cloud.onended = none ∧
      (start i cfg now s).1.ttsUtterance = some (i, cfg)) := by
  have hpre : ¬(cfg.bookId = "" ∨ cfg.totalLines = 0 ∨
      cfg.selectedVoice = none) := by
    rintro (h | h | h)
    · exact hB h
    · exact hT h
    · rw [hV] at h
      exact Option.noConfusion h
  have hI : ¬(i < 0 ∨ cfg.totalLines ≤ i) := by
    rintro (h | h)
    exacts [absurd h h0.not_lt, absurd h h1.not_le]
  have hL : ¬((cfg.lines.length : Int) ≤ i) := h2.not_le
  rcases v with ⟨vt, vid⟩
  constructor
  · intro hvt
    cases vt
    · exact absurd hvt (by simp)
    · have hplay := play_cloud i cfg vid now s hpre hI hL hV
      unfold start
      rw [hplay]
      exact ⟨rfl, rfl, rfl, rfl⟩
  · intro hvt
    cases vt
    · have hplay := play_system i cfg vid now s hpre hI hL hV
      unfold start
      rw [hplay]
      exact ⟨rfl, rfl, rfl, rfl⟩
    · exact absurd hvt (by simp)

/-- Witness for C3: the cloud case at index 0 and the system case at
index 1 of concrete three-line books. -/
theorem c3_dispatch_witness :
    ((start 0 cfgCloud "t0" st0).2 =
      [Ev.isPlayingChange true, Ev.ttsStop, Ev.cloudPause,
       Ev.cloudSetSrc (cloudUrl 0 cfgCloud), Ev.cloudPlay (cloudUrl 0 cfgCloud)] ∧
     (start 0 cfgCloud "t0" st0).1.ttsUtterance = none ∧
     (start 0 cfgCloud "t0" st0).1.cloud.onended = some (0, cfgCloud) ∧
     (start 0 cfgCloud "t0" st0).1.cloud.src = some (cloudUrl 0 cfgCloud)) ∧
    ((start 1 cfgSys "t0" st0).2 =
      [Ev.isPlayingChange true, Ev.cloudPause, Ev.cloudUnload,
       Ev.ttsSpeak (cfgSys.lines.getD (1 : Int).toNat "")] ∧
     (start 1 cfgSys "t0" st0).1.cloud.src = none ∧
     (start 1 cfgSys "t0" st0).1.cloud.onended = none ∧
     (start 1 cfgSys "t0" st0).1.ttsUtterance = some (1, cfgSys)) :=
  ⟨(c3_dispatch 0 cfgCloud voiceCloud "t0" st0 (by decide) (by decide) rfl
      (by decide) (by decide) (by decide)).1 rfl,
   (c3_dispatch 1 cfgSys voiceSys "t0" st0 (by decide) (by decide) rfl
      (by decide) (by decide) (by decide)).2 rfl⟩

/-- C4: debounced resume coalescing.  After `resume(i1, c1)` the single
timer slot holds `(i1, c1)`; a second `resume(i2, c2)` within the window
replaces it with `(i2, c2)` and sets the restart guard; firing the timer
performs exactly the `play(i2, c2)` call and clears the guard, leaving no
pending timer. -/
theorem c4_resume_debounce (s : EngineState) (i1 i2 : Int)
    (c1 c2 : SpeechConfigs) (now : String) :
    (resume i1 c1 s).1.timer = some (i1, c1) ∧
    (resume i2 c2 (resume i1 c1 s).1).1.timer = some (i2, c2) ∧
    (resume i2 c2 (resume i1 c1 s).1).1.isRestarting = true ∧
    (fireTimer now (resume i2 c2 (resume i1 c1 s).1).1).2 =
      (play i2 c2 now
        { (resume i2 c2 (resume i1 c1 s).1).1 with timer := none }).2 ∧
    (fireTimer now (resume i2 c2 (resume i1 c1 s).1).1).1.isRestarting
      = false ∧
    (fireTimer now (resume i2 c2 (resume i1 c1 s).1).1).1.timer = none := by
  refine ⟨rfl, rfl, rfl, rfl, rfl, ?_⟩
  exact play_timer_none i2 c2 now _ rfl

/-- C7: natural-advance ordering.  A natural completion of line `i`
(delivered by either adapter) emits `onLineEnd(i + 1)` before the events
of `start(i + 1, config)`; in the ten-line fully loaded system-voice
scenario, completion of line 9 emits `onLineEnd(10)` and then, since
`10 ≥ totalLines`, `onBookCompleted`, starting no adapter. -/
theorem c7_natural_advance (s : EngineState) (i : Int)
    (cfg : SpeechConfigs) (now : String) :
    (s.ttsUtterance = some (i, cfg) →
      (fireTtsEnd now s).2 =
        Ev.lineEnd (i + 1) ::
          (start (i + 1) cfg now { s with ttsUtterance := none }).2) ∧
    (s.cloud.onended = some (i, cfg) →
      (fireCloudEnded now s).2 =
        Ev.lineEnd (i + 1) :: (start (i + 1) cfg now s).2) ∧
    (s.ttsUtterance = some (9, cfgTen) →
      (fireTtsEnd now s).2 =
        [Ev.lineEnd 10, Ev.isPlayingChange true, Ev.isPlayingChange false,
         Ev.bookCompleted now]) := by
  refine ⟨fun h => ?_, fun h => ?_, fun h => ?_⟩
  · unfold fireTtsEnd
    rw [h]
  · unfold fireCloudEnded
    rw [h]
  · unfold fireTtsEnd
    rw [h]
    show Ev.lineEnd (9 + 1) ::
      (start (9 + 1) cfgTen now { s with ttsUtterance := none }).2 = _
    unfold start
    rw [play_boundary (9 + 1) cfgTen now _ (by decide) (by decide)]
    rfl

/-- Witness for C7: the scenario state mid-synthesis of line 9. -/
theorem c7_natural_advance_witness :
    (fireTtsEnd "t0" stNine).2 =
      [Ev.lineEnd 10, Ev.isPlayingChange true, Ev.isPlayingChange false,
       Ev.bookCompleted "t0"] :=
  (c7_natural_advance stNine 9 cfgTen "t0").2.2 rfl

end SpeechService
